import Mathlib

/-!
Shallow embedding of the DNSSECAnalyzer parsing engine
(package `pkg/models/dnsrecords`, `internal/scanner`) in Lean 4.

Go strings are modelled as Lean `String`s, Go slices as `List`s,
Go `uintN` values as `Nat` (with explicit range bounds / `% 2^N`
truncation where the Go code converts), nilable pointers as `Option`,
and fallible functions (`(T, error)`) as `Except`.
Methods with a pointer receiver that mutate the receiver are modelled
as functions from the receiver value to the updated receiver value.
-/

set_option maxRecDepth 8000

namespace DNSSEC

/-! ## Go string primitives used by the source -/

/-- The characters of a string. -/
def chars (s : String) : List Char := s.data

/-- Build a string back from characters. -/
def ofChars (cs : List Char) : String := ⟨cs⟩

/-- Model of `unicode.IsSpace` (the character class used by `strings.Fields` and
`strings.TrimSpace`). -/
def isGoSpace (c : Char) : Bool :=
  c == ' ' || c == '\t' || c == '\n' || c == '\x0b' || c == '\x0c' || c == '\r'
    || c == '\x85' || c == '\xa0'

/-- The RE2 character class `\s` = `[\t\n\f\r ]`. -/
def isRegexSpace (c : Char) : Bool :=
  c == ' ' || c == '\t' || c == '\n' || c == '\x0c' || c == '\r'

/-- The RE2 word-character class `\w` = `[0-9A-Za-z_]`
(Lean's `Char.isAlphanum` is exactly ASCII letters and digits). -/
def isWordChar (c : Char) : Bool := c.isAlphanum || c == '_'

/-- Split a character list at every character satisfying `p`,
keeping empty segments (the behaviour of `strings.Split` on a
one-character separator when `p` recognises that character). -/
def splitBy (p : Char → Bool) : List Char → List (List Char)
  | [] => [[]]
  | c :: rest =>
    match splitBy p rest with
    | [] => [[c]]
    | h :: t => if p c then [] :: h :: t else (c :: h) :: t

/-- Model of `strings.Split(s, "\n")`. -/
def goLines (s : String) : List String :=
  (splitBy (· == '\n') (chars s)).map ofChars

/-- Model of `strings.Fields`: split around runs of white space. -/
def goFields (s : String) : List String :=
  (((splitBy isGoSpace (chars s))).filter (· ≠ [])).map ofChars

/-- Substring search on character lists. -/
def containsChars (sub : List Char) : List Char → Bool
  | [] => sub.isEmpty
  | c :: rest => sub.isPrefixOf (c :: rest) || containsChars sub rest

/-- Model of `strings.Contains(s, sub)`. -/
def goContains (s sub : String) : Bool := containsChars (chars sub) (chars s)

/-- Model of `strings.HasPrefix(s, pre)`. -/
def goStartsWith (s pre : String) : Bool := (chars pre).isPrefixOf (chars s)

/-- Model of `strings.TrimSuffix(s, suf)`. -/
def goTrimSuffix (s suf : String) : String :=
  if (chars suf).isSuffixOf (chars s) then
    ofChars ((chars s).take ((chars s).length - (chars suf).length))
  else s

/-- Model of `strings.TrimSpace(s)`. -/
def goTrimSpace (s : String) : String :=
  ofChars ((((chars s).dropWhile isGoSpace).reverse.dropWhile isGoSpace).reverse)

/-- Model of `strings.Index(s, ".")` restricted to a single-character needle:
index of the first occurrence of `c`, or `none` for Go's `-1`. -/
def idxOfChar (c : Char) : List Char → Option Nat
  | [] => none
  | d :: rest => if d == c then some 0 else (idxOfChar c rest).map (· + 1)

/-- Model of `strings.Join(parts, sep)`. -/
def goJoin (parts : List String) (sep : String) : String :=
  String.intercalate sep parts

/-- Numeric value of a digit string. -/
def digitsToNat (cs : List Char) : Nat :=
  cs.foldl (fun a c => 10 * a + (c.toNat - '0'.toNat)) 0

/-- Model of `strconv.ParseUint(s, 10, bits)`: `some` value on success, `none` on a
syntax or range error (the source always treats both the same way). -/
def goParseUint (bits : Nat) (s : String) : Option Nat :=
  if chars s ≠ [] ∧ (chars s).all Char.isDigit then
    if digitsToNat (chars s) < 2 ^ bits then some (digitsToNat (chars s)) else none
  else none

/-! ## The regular expressions `\bW1\s+W2\b` of the source

Every data/RRSIG line test in the source is `regexp.MustCompile` of the
shape `\bW1\s+W2\b` with `W1`, `W2` non-empty words over `\w`, applied
via `MatchString`.  Because `W2` starts with a word character, such a
pattern matches iff at some position preceded by a non-word character
(or the start), `W1` occurs, followed by a non-empty maximal run of
`\s` characters, followed by `W2`, followed by a non-word character or
the end. -/

/-- Match `W1\s+W2\b` at the head of `cs`. -/
def matchPairAt (w1 w2 : List Char) (cs : List Char) : Bool :=
  w1.isPrefixOf cs &&
    (let r1 := cs.drop w1.length
     let ws := r1.takeWhile isRegexSpace
     let r2 := r1.dropWhile isRegexSpace
     !ws.isEmpty && w2.isPrefixOf r2 &&
       (match r2.drop w2.length with
        | [] => true
        | c :: _ => !isWordChar c))

/-- Scan for `\bW1\s+W2\b`, tracking the previous character for the
leading word boundary. -/
def reWordPairAux (w1 w2 : List Char) : Option Char → List Char → Bool
  | _, [] => false
  | prev, c :: rest =>
    ((match prev with
      | none => true
      | some p => !isWordChar p) && matchPairAt w1 w2 (c :: rest))
      || reWordPairAux w1 w2 (some c) rest

/-- Model of `regexp.MustCompile("\\bW1\\s+W2\\b").MatchString(line)`. -/
def reWordPair (w1 w2 line : String) : Bool :=
  reWordPairAux (chars w1) (chars w2) none (chars line)

/-! ## Error model

The source reports errors through `fmt.Errorf`/`errors.New` strings.
We keep the error sites apart structurally: the resolution-failure
error carries the first line of the response, a minimum-token-count
failure carries the offending line, and a field-parse failure carries
the offending token, exactly the data interpolated by the source. -/

inductive ParseErr where
  | resolutionFailed (firstLine : String)
  | invalidFormat (what : String) (line : String)
  | invalidField (what : String) (token : String)
deriving DecidableEq, Repr

/-! ## Go `time.Parse("20060102150405", s).Unix()` -/

def isLeapYear (y : Nat) : Bool :=
  y % 4 == 0 && (y % 100 != 0 || y % 400 == 0)

def daysInMonth (y m : Nat) : Nat :=
  if m == 2 then (if isLeapYear y then 29 else 28)
  else if m == 4 || m == 6 || m == 9 || m == 11 then 30
  else 31

/-- Rank of a proleptic-Gregorian date (civil-days algorithm), valid for
`y ≥ 1`; differences of ranks are differences in days. -/
def civilRank (y m d : Nat) : Nat :=
  let y' := if m ≤ 2 then y - 1 else y
  let era := y' / 400
  let yoe := y' % 400
  let mp := if m > 2 then m - 3 else m + 9
  let doy := (153 * mp + 2) / 5 + d - 1
  let doe := yoe * 365 + yoe / 4 - yoe / 100 + doy
  era * 146097 + doe

/-- Days from the Unix epoch to year `y` (shifted by 400 years so the
rank argument stays positive even for year 0), month `m`, day `d`. -/
def daysFromEpoch (y m d : Nat) : Int :=
  (civilRank (y + 400) m d : Int) - (civilRank 2370 1 1 : Int)

/-- Model of `parseTime` of the source: `time.Parse` with the fixed layout
`"20060102150405"` (exactly 14 digits, UTC), then `.Unix()`.
`time.Parse` rejects a month, day, hour, minute or second out of range
(day measured against the month and leap year). -/
def parseTime (timeStr : String) : Option Int :=
  let cs := chars timeStr
  if cs.length == 14 && cs.all Char.isDigit then
    let y := digitsToNat (cs.take 4)
    let mo := digitsToNat ((cs.drop 4).take 2)
    let d := digitsToNat ((cs.drop 6).take 2)
    let h := digitsToNat ((cs.drop 8).take 2)
    let mi := digitsToNat ((cs.drop 10).take 2)
    let sec := digitsToNat ((cs.drop 12).take 2)
    if 1 ≤ mo && mo ≤ 12 && 1 ≤ d && d ≤ daysInMonth y mo
        && h ≤ 23 && mi ≤ 59 && sec ≤ 59 then
      some (daysFromEpoch y mo d * 86400 + (h * 3600 + mi * 60 + sec : Nat))
    else none
  else none

/-- Go's `uint32(i)` conversion from `int64`: the low 32 bits. -/
def toUint32 (i : Int) : Nat := (i % (2 ^ 32 : Int)).toNat

/-! ## RRSIGRecord (`pkg/models/dnsrecords`, RRSIG parser) -/

structure RRSIGRecord where
  TypeCovered : String
  Algorithm : Nat
  Labels : Nat
  OriginalTTL : Nat
  Expiration : Nat
  Inception : Nat
  KeyTag : Nat
  SignerName : String
  Signature : String
deriving DecidableEq, Repr

/-- Model of `(*RRSIGRecord).Parse`. -/
def RRSIGRecord.Parse (rrsigLine : String) : Except ParseErr RRSIGRecord :=
  let parts := goFields rrsigLine
  if parts.length < 13 then
    .error (.invalidFormat "RRSIG record format" rrsigLine)
  else
    match goParseUint 8 (parts.getD 5 "") with
    | none => .error (.invalidField "algorithm value" (parts.getD 5 ""))
    | some algorithm =>
    match goParseUint 8 (parts.getD 6 "") with
    | none => .error (.invalidField "labels value" (parts.getD 6 ""))
    | some labels =>
    match goParseUint 32 (parts.getD 7 "") with
    | none => .error (.invalidField "original TTL value" (parts.getD 7 ""))
    | some originalTTL =>
    match parseTime (parts.getD 8 "") with
    | none => .error (.invalidField "expiration time value" (parts.getD 8 ""))
    | some expiration =>
    match parseTime (parts.getD 9 "") with
    | none => .error (.invalidField "inception time value" (parts.getD 9 ""))
    | some inception =>
    match goParseUint 16 (parts.getD 10 "") with
    | none => .error (.invalidField "key tag value" (parts.getD 10 ""))
    | some keyTag =>
      .ok { TypeCovered := parts.getD 4 ""
            Algorithm := algorithm
            Labels := labels
            OriginalTTL := originalTTL
            Expiration := toUint32 expiration
            Inception := toUint32 inception
            KeyTag := keyTag
            SignerName := goTrimSuffix (parts.getD 11 "") "."
            Signature := String.join (parts.drop 12) }

/-- Model of `(*RRSIGRecord).Compare` on two non-nil records. -/
def RRSIGRecord.Compare (r b : RRSIGRecord) : Bool :=
  r.TypeCovered == b.TypeCovered &&
  r.Algorithm == b.Algorithm &&
  r.Labels == b.Labels &&
  r.OriginalTTL == b.OriginalTTL &&
  r.Expiration == b.Expiration &&
  r.Inception == b.Inception &&
  r.KeyTag == b.KeyTag &&
  r.SignerName == b.SignerName &&
  r.Signature == b.Signature

/-- Model of `r.Compare(b)` on `*RRSIGRecord` values that may be nil: the method
first handles a nil receiver and a nil argument. -/
def RRSIGRecord.ComparePtr : Option RRSIGRecord → Option RRSIGRecord → Bool
  | none, none => true
  | none, some _ => false
  | some _, none => false
  | some x, some y => x.Compare y

/-! ## ARecord / AResponse -/

structure ARecord where
  IPv4 : String
  OriginalTTL : Nat
deriving DecidableEq, Repr

structure AResponse where
  Records : List ARecord
  Validated : Bool
  RRSIG : Option RRSIGRecord
  RawResponse : String
deriving DecidableEq, Repr

/-- The Go zero value `AResponse{}`. -/
def AResponse.zero : AResponse :=
  { Records := [], Validated := false, RRSIG := none, RawResponse := "" }

/-- The loop body of `(*AResponse).Parse` for one line: either updates
the receiver or returns (the Go `return nil, err`). -/
def AResponse.handleLine (r : AResponse) (line : String) : Except ParseErr AResponse :=
  if goStartsWith line "; fully validated" then
    .ok { r with Validated := true }
  else if goStartsWith line "; unsigned answer" then
    .ok { r with Validated := false }
  else if reWordPair "IN" "A" line then
    let parts := goFields line
    if parts.length < 5 then .error (.invalidFormat "A r" line)
    else
      match goParseUint 32 (parts.getD 1 "") with
      | none => .error (.invalidField "TTL" (parts.getD 1 ""))
      | some ttl =>
        .ok { r with Records := r.Records ++ [{ IPv4 := parts.getD 4 "", OriginalTTL := ttl }] }
  else if reWordPair "RRSIG" "A" line then
    match RRSIGRecord.Parse line with
    | .error e => .error e
    | .ok sig => .ok { r with RRSIG := some sig }
  else .ok r

/-- The per-line loop of `(*AResponse).Parse`. -/
def AResponse.parseLines : AResponse → List String → Except ParseErr AResponse
  | r, [] => .ok r
  | r, line :: rest =>
    match AResponse.handleLine r line with
    | .error e => .error e
    | .ok r' => AResponse.parseLines r' rest

/-- Model of `(*AResponse).Parse`. -/
def AResponse.Parse (r : AResponse) (response : String) : Except ParseErr AResponse :=
  if goContains response "resolution failed" then
    .error (.resolutionFailed ((goLines response).getD 0 ""))
  else
    AResponse.parseLines { r with RawResponse := response } (goLines response)

/-- Model of `(*ARecord).Compare`. -/
def ARecord.Compare (r b : ARecord) : Bool := r.IPv4 == b.IPv4

/-- Model of `(*AResponse).Compare`. -/
def AResponse.Compare (r b : AResponse) : Bool :=
  r.Records.length == b.Records.length &&
  (List.zip r.Records b.Records).all (fun p => p.1.Compare p.2) &&
  (r.Validated == b.Validated &&
    RRSIGRecord.ComparePtr r.RRSIG b.RRSIG &&
    r.RawResponse == b.RawResponse)

/-! ## AAAARecord / AAAAResponse -/

structure AAAARecord where
  IPv6 : String
  OriginalTTL : Nat
deriving DecidableEq, Repr

structure AAAAResponse where
  Records : List AAAARecord
  Validated : Bool
  RRSIG : Option RRSIGRecord
  RawResponse : String
deriving DecidableEq, Repr

def AAAAResponse.zero : AAAAResponse :=
  { Records := [], Validated := false, RRSIG := none, RawResponse := "" }

/-- The loop body of `(*AAAAResponse).Parse` for one line. -/
def AAAAResponse.handleLine (r : AAAAResponse) (line : String) : Except ParseErr AAAAResponse :=
  if goStartsWith line "; fully validated" then
    .ok { r with Validated := true }
  else if goStartsWith line "; unsigned answer" then
    .ok { r with Validated := false }
  else if reWordPair "IN" "AAAA" line then
    let parts := goFields line
    if parts.length < 5 then .error (.invalidFormat "AAAA r" line)
    else
      match goParseUint 32 (parts.getD 1 "") with
      | none => .error (.invalidField "TTL" (parts.getD 1 ""))
      | some ttl =>
        .ok { r with Records := r.Records ++ [{ IPv6 := parts.getD 4 "", OriginalTTL := ttl }] }
  else if reWordPair "RRSIG" "AAAA" line then
    match RRSIGRecord.Parse line with
    | .error e => .error e
    | .ok sig => .ok { r with RRSIG := some sig }
  else .ok r

/-- The per-line loop of `(*AAAAResponse).Parse`. -/
def AAAAResponse.parseLines : AAAAResponse → List String → Except ParseErr AAAAResponse
  | r, [] => .ok r
  | r, line :: rest =>
    match AAAAResponse.handleLine r line with
    | .error e => .error e
    | .ok r' => AAAAResponse.parseLines r' rest

/-- Model of `(*AAAAResponse).Parse`. -/
def AAAAResponse.Parse (r : AAAAResponse) (response : String) : Except ParseErr AAAAResponse :=
  if goContains response "resolution failed" then
    .error (.resolutionFailed ((goLines response).getD 0 ""))
  else
    AAAAResponse.parseLines { r with RawResponse := response } (goLines response)

/-- Model of `(*AAAARecord).Compare`. -/
def AAAARecord.Compare (r b : AAAARecord) : Bool := r.IPv6 == b.IPv6

/-- Model of `(*AAAAResponse).Compare`. -/
def AAAAResponse.Compare (r b : AAAAResponse) : Bool :=
  r.Records.length == b.Records.length &&
  (List.zip r.Records b.Records).all (fun p => p.1.Compare p.2) &&
  (r.Validated == b.Validated &&
    RRSIGRecord.ComparePtr r.RRSIG b.RRSIG &&
    r.RawResponse == b.RawResponse)

/-! ## DSRecord / DSResponse -/

structure DSRecord where
  KeyTag : Nat
  Algorithm : Nat
  DigestType : Nat
  Digest : String
deriving DecidableEq, Repr

structure DSResponse where
  Records : List DSRecord
  Validated : Bool
  RRSIG : Option RRSIGRecord
  RawResponse : String
deriving DecidableEq, Repr

def DSResponse.zero : DSResponse :=
  { Records := [], Validated := false, RRSIG := none, RawResponse := "" }

/-- The `IN DS` data-line block of `(*DSResponse).Parse`. -/
def parseDSLine (line : String) : Except ParseErr DSRecord :=
  let parts := goFields line
  if parts.length < 8 then .error (.invalidFormat "DS r format" line)
  else
    match goParseUint 16 (parts.getD 4 "") with
    | none => .error (.invalidField "key tag" (parts.getD 4 ""))
    | some keyTag =>
    match goParseUint 8 (parts.getD 5 "") with
    | none => .error (.invalidField "algorithm" (parts.getD 5 ""))
    | some algorithm =>
    match goParseUint 8 (parts.getD 6 "") with
    | none => .error (.invalidField "digest type" (parts.getD 6 ""))
    | some digestType =>
      .ok { KeyTag := keyTag, Algorithm := algorithm, DigestType := digestType
            Digest := goJoin (parts.drop 7) "" }

/-- The loop body of `(*DSResponse).Parse` for one line. -/
def DSResponse.handleLine (r : DSResponse) (line : String) : Except ParseErr DSResponse :=
  if goStartsWith line "; fully validated" then
    .ok { r with Validated := true }
  else if goStartsWith line "; unsigned answer" then
    .ok { r with Validated := false }
  else if reWordPair "IN" "DS" line then
    match parseDSLine line with
    | .error e => .error e
    | .ok rec => .ok { r with Records := r.Records ++ [rec] }
  else if reWordPair "RRSIG" "DS" line then
    match RRSIGRecord.Parse line with
    | .error e => .error e
    | .ok sig => .ok { r with RRSIG := some sig }
  else .ok r

/-- The per-line loop of `(*DSResponse).Parse`. -/
def DSResponse.parseLines : DSResponse → List String → Except ParseErr DSResponse
  | r, [] => .ok r
  | r, line :: rest =>
    match DSResponse.handleLine r line with
    | .error e => .error e
    | .ok r' => DSResponse.parseLines r' rest

/-- Model of `(*DSResponse).Parse`. -/
def DSResponse.Parse (r : DSResponse) (response : String) : Except ParseErr DSResponse :=
  if goContains response "resolution failed" then
    .error (.resolutionFailed ((goLines response).getD 0 ""))
  else
    DSResponse.parseLines { r with RawResponse := response } (goLines response)

/-- Model of `(*DSRecord).Compare`. -/
def DSRecord.Compare (r b : DSRecord) : Bool :=
  r.KeyTag == b.KeyTag &&
  r.Algorithm == b.Algorithm &&
  r.DigestType == b.DigestType &&
  r.Digest == b.Digest

/-- Model of `(*DSResponse).Compare` (this one checks the nil pointers itself). -/
def DSResponse.Compare (r b : DSResponse) : Bool :=
  r.Records.length == b.Records.length &&
  (List.zip r.Records b.Records).all (fun p => p.1.Compare p.2) &&
  (match r.RRSIG, b.RRSIG with
   | some x, some y => x.Compare y
   | none, none => true
   | _, _ => false) &&
  (r.Validated == b.Validated && r.RawResponse == b.RawResponse)

/-! ## SOARecord -/

structure SOARecord where
  PrimaryNS : String
  Contact : String
  Serial : Nat
  Refresh : Nat
  Retry : Nat
  Expire : Nat
  Minimum : Nat
  Validated : Bool
  RRSIG : Option RRSIGRecord
  RawResponse : String
deriving DecidableEq, Repr

def SOARecord.zero : SOARecord :=
  { PrimaryNS := "", Contact := "", Serial := 0, Refresh := 0, Retry := 0
    Expire := 0, Minimum := 0, Validated := false, RRSIG := none, RawResponse := "" }

/-- The contact rewriting of `(*SOARecord).Parse`: trailing dot stripped,
then the first remaining dot replaced by `@`. -/
def soaContact (tok : String) : String :=
  let contact := goTrimSuffix tok "."
  match idxOfChar '.' (chars contact) with
  | none => contact
  | some i =>
    ofChars (((chars contact).take i) ++ '@' :: ((chars contact).drop (i + 1)))

/-- The `IN SOA` data-line block of `(*SOARecord).Parse`: overwrites the
single-record fields of the receiver. -/
def parseSOALine (r : SOARecord) (line : String) : Except ParseErr SOARecord :=
  let parts := goFields line
  if parts.length < 11 then .error (.invalidFormat "SOA r format" line)
  else
    match goParseUint 32 (parts.getD 6 "") with
    | none => .error (.invalidField "serial number" (parts.getD 6 ""))
    | some serial =>
    match goParseUint 32 (parts.getD 7 "") with
    | none => .error (.invalidField "refresh time" (parts.getD 7 ""))
    | some refresh =>
    match goParseUint 32 (parts.getD 8 "") with
    | none => .error (.invalidField "retry time" (parts.getD 8 ""))
    | some retry =>
    match goParseUint 32 (parts.getD 9 "") with
    | none => .error (.invalidField "expire time" (parts.getD 9 ""))
    | some expire =>
    match goParseUint 32 (parts.getD 10 "") with
    | none => .error (.invalidField "minimum time" (parts.getD 10 ""))
    | some minimum =>
      .ok { r with
            PrimaryNS := goTrimSuffix (parts.getD 4 "") "."
            Contact := soaContact (parts.getD 5 "")
            Serial := serial, Refresh := refresh, Retry := retry
            Expire := expire, Minimum := minimum }

/-- The loop body of `(*SOARecord).Parse` for one line. -/
def SOARecord.handleLine (r : SOARecord) (line : String) : Except ParseErr SOARecord :=
  if goStartsWith line "; fully validated" then
    .ok { r with Validated := true }
  else if goStartsWith line "; unsigned answer" then
    .ok { r with Validated := false }
  else if reWordPair "IN" "SOA" line then
    parseSOALine r line
  else if reWordPair "RRSIG" "SOA" line then
    match RRSIGRecord.Parse line with
    | .error e => .error e
    | .ok sig => .ok { r with RRSIG := some sig }
  else .ok r

/-- The per-line loop of `(*SOARecord).Parse`. -/
def SOARecord.parseLines : SOARecord → List String → Except ParseErr SOARecord
  | r, [] => .ok r
  | r, line :: rest =>
    match SOARecord.handleLine r line with
    | .error e => .error e
    | .ok r' => SOARecord.parseLines r' rest

/-- Model of `(*SOARecord).Parse`. -/
def SOARecord.Parse (r : SOARecord) (response : String) : Except ParseErr SOARecord :=
  if goContains response "resolution failed" then
    .error (.resolutionFailed ((goLines response).getD 0 ""))
  else
    SOARecord.parseLines { r with RawResponse := response } (goLines response)

/-- Model of `(*SOARecord).Compare` (checks every field, nil pointers explicitly). -/
def SOARecord.Compare (r b : SOARecord) : Bool :=
  (match r.RRSIG, b.RRSIG with
   | none, none => true
   | some x, some y => x.Compare y
   | _, _ => false) &&
  (r.PrimaryNS == b.PrimaryNS &&
    r.Contact == b.Contact &&
    r.Serial == b.Serial &&
    r.Refresh == b.Refresh &&
    r.Retry == b.Retry &&
    r.Expire == b.Expire &&
    r.Minimum == b.Minimum &&
    r.Validated == b.Validated &&
    r.RawResponse == b.RawResponse)

/-! ## NSECRecord -/

structure NSECRecord where
  TTL : Nat
  NextDomainName : String
  Types : String
  Validated : Bool
  RRSIG : Option RRSIGRecord
  RawResponse : String
deriving DecidableEq, Repr

def NSECRecord.zero : NSECRecord :=
  { TTL := 0, NextDomainName := "", Types := "", Validated := false
    RRSIG := none, RawResponse := "" }

/-- The `IN NSEC` data-line block of `(*NSECRecord).Parse`. -/
def parseNSECLine (r : NSECRecord) (line : String) : Except ParseErr NSECRecord :=
  let parts := goFields line
  if parts.length < 6 then .error (.invalidFormat "NSEC r" line)
  else
    match goParseUint 32 (parts.getD 1 "") with
    | none => .error (.invalidField "TTL" (parts.getD 1 ""))
    | some ttl =>
      .ok { r with
            TTL := ttl
            NextDomainName := parts.getD 4 ""
            Types := goJoin (parts.drop 5) ";" }

/-- The loop body of `(*NSECRecord).Parse` for one line. -/
def NSECRecord.handleLine (r : NSECRecord) (line : String) : Except ParseErr NSECRecord :=
  if goStartsWith line "; fully validated" then
    .ok { r with Validated := true }
  else if goStartsWith line "; unsigned answer" then
    .ok { r with Validated := false }
  else if reWordPair "IN" "NSEC" line then
    parseNSECLine r line
  else if reWordPair "RRSIG" "NSEC" line then
    match RRSIGRecord.Parse line with
    | .error e => .error e
    | .ok sig => .ok { r with RRSIG := some sig }
  else .ok r

/-- The per-line loop of `(*NSECRecord).Parse`. -/
def NSECRecord.parseLines : NSECRecord → List String → Except ParseErr NSECRecord
  | r, [] => .ok r
  | r, line :: rest =>
    match NSECRecord.handleLine r line with
    | .error e => .error e
    | .ok r' => NSECRecord.parseLines r' rest

/-- Model of `(*NSECRecord).Parse`. -/
def NSECRecord.Parse (r : NSECRecord) (response : String) : Except ParseErr NSECRecord :=
  if goContains response "resolution failed" then
    .error (.resolutionFailed ((goLines response).getD 0 ""))
  else
    NSECRecord.parseLines { r with RawResponse := response } (goLines response)

/-- Model of `(*NSECRecord).Compare` (note: the `TTL` field is not compared). -/
def NSECRecord.Compare (r b : NSECRecord) : Bool :=
  r.NextDomainName == b.NextDomainName &&
  r.Types == b.Types &&
  r.Validated == b.Validated &&
  RRSIGRecord.ComparePtr r.RRSIG b.RRSIG &&
  r.RawResponse == b.RawResponse

/-! ## NSEC3PARAMRecord -/

structure NSEC3PARAMRecord where
  TTL : Nat
  HashAlgorithm : Nat
  Flags : Nat
  Iterations : Nat
  SaltLength : Nat
  Validated : Bool
  RRSIG : Option RRSIGRecord
  RawResponse : String
deriving DecidableEq, Repr

def NSEC3PARAMRecord.zero : NSEC3PARAMRecord :=
  { TTL := 0, HashAlgorithm := 0, Flags := 0, Iterations := 0, SaltLength := 0
    Validated := false, RRSIG := none, RawResponse := "" }

/-- The `IN NSEC3PARAM` data-line block of `(*NSEC3PARAMRecord).Parse`.
The salt-length token is first given to `strconv.ParseUint`; on failure
the literal `-` means salt length zero, anything else is an error. -/
def parseNSEC3PARAMLine (r : NSEC3PARAMRecord) (line : String) :
    Except ParseErr NSEC3PARAMRecord :=
  let parts := goFields line
  if parts.length < 8 then .error (.invalidFormat "NSEC3PARAMRecord r" line)
  else
    match goParseUint 32 (parts.getD 1 "") with
    | none => .error (.invalidField "TTL" (parts.getD 1 ""))
    | some ttl =>
    match goParseUint 8 (parts.getD 4 "") with
    | none => .error (.invalidField "Hash Algorithm" (parts.getD 4 ""))
    | some hashAlgorithm =>
    match goParseUint 8 (parts.getD 5 "") with
    | none => .error (.invalidField "Flags" (parts.getD 5 ""))
    | some flags =>
    match goParseUint 16 (parts.getD 6 "") with
    | none => .error (.invalidField "Iterations" (parts.getD 6 ""))
    | some iterations =>
    match goParseUint 8 (parts.getD 7 "") with
    | some saltLength =>
      .ok { r with TTL := ttl, HashAlgorithm := hashAlgorithm, Flags := flags
                   Iterations := iterations, SaltLength := saltLength }
    | none =>
      if parts.getD 7 "" == "-" then
        .ok { r with TTL := ttl, HashAlgorithm := hashAlgorithm, Flags := flags
                     Iterations := iterations, SaltLength := 0 }
      else .error (.invalidField "Salt Length" (parts.getD 7 ""))

/-- The loop body of `(*NSEC3PARAMRecord).Parse` for one line. -/
def NSEC3PARAMRecord.handleLine (r : NSEC3PARAMRecord) (line : String) :
    Except ParseErr NSEC3PARAMRecord :=
  if goStartsWith line "; fully validated" then
    .ok { r with Validated := true }
  else if goStartsWith line "; unsigned answer" then
    .ok { r with Validated := false }
  else if reWordPair "IN" "NSEC3PARAM" line then
    parseNSEC3PARAMLine r line
  else if reWordPair "RRSIG" "NSEC3PARAM" line then
    match RRSIGRecord.Parse line with
    | .error e => .error e
    | .ok sig => .ok { r with RRSIG := some sig }
  else .ok r

/-- The per-line loop of `(*NSEC3PARAMRecord).Parse`. -/
def NSEC3PARAMRecord.parseLines :
    NSEC3PARAMRecord → List String → Except ParseErr NSEC3PARAMRecord
  | r, [] => .ok r
  | r, line :: rest =>
    match NSEC3PARAMRecord.handleLine r line with
    | .error e => .error e
    | .ok r' => NSEC3PARAMRecord.parseLines r' rest

/-- Model of `(*NSEC3PARAMRecord).Parse`. -/
def NSEC3PARAMRecord.Parse (r : NSEC3PARAMRecord) (response : String) :
    Except ParseErr NSEC3PARAMRecord :=
  if goContains response "resolution failed" then
    .error (.resolutionFailed ((goLines response).getD 0 ""))
  else
    NSEC3PARAMRecord.parseLines { r with RawResponse := response } (goLines response)

/-- Model of `(*NSEC3PARAMRecord).Compare`. -/
def NSEC3PARAMRecord.Compare (r b : NSEC3PARAMRecord) : Bool :=
  r.TTL == b.TTL &&
  r.HashAlgorithm == b.HashAlgorithm &&
  r.Flags == b.Flags &&
  r.Iterations == b.Iterations &&
  r.SaltLength == b.SaltLength &&
  r.Validated == b.Validated &&
  RRSIGRecord.ComparePtr r.RRSIG b.RRSIG &&
  r.RawResponse == b.RawResponse

/-! ## DNSKEYRecord / DNSKEYResponse -/

structure DNSKEYRecord where
  Flags : Nat
  Protocol : Nat
  Algorithm : Nat
  PublicKey : String
  KeyType : String
  AlgorithmName : String
  KeyID : Nat
deriving DecidableEq, Repr

structure DNSKEYResponse where
  Records : List DNSKEYRecord
  Validated : Bool
  RRSIG : Option RRSIGRecord
  RawResponse : String
deriving DecidableEq, Repr

def DNSKEYResponse.zero : DNSKEYResponse :=
  { Records := [], Validated := false, RRSIG := none, RawResponse := "" }

/-- Model of `strings.Split(comment, "=")` followed by taking index 1 and
`strings.TrimSpace`, as done for `alg =` and `key id =` comments. -/
def eqRhs (comment : String) : String :=
  goTrimSpace (((splitBy (· == '=') (chars comment)).map ofChars).getD 1 "")

/-- The comment loop of the `IN DNSKEY` data-line block (over
`strings.Split(strings.Join(parts[7:], " "), ";")[1:]`). -/
def parseDNSKEYComments : DNSKEYRecord → List String → Except ParseErr DNSKEYRecord
  | rec, [] => .ok rec
  | rec, comment :: rest =>
    if goContains comment "alg =" then
      parseDNSKEYComments { rec with AlgorithmName := eqRhs comment } rest
    else if goContains comment "key id =" then
      match goParseUint 16 (eqRhs comment) with
      | none => .error (.invalidField "key id" (eqRhs comment))
      | some keyID => parseDNSKEYComments { rec with KeyID := keyID } rest
    else if goContains comment "ZSK" || goContains comment "KSK" then
      match goFields comment with
      | [] => .error (.invalidField "key type" comment)
      | kt :: _ => parseDNSKEYComments { rec with KeyType := kt } rest
    else parseDNSKEYComments rec rest

/-- The `IN DNSKEY` data-line block of `(*DNSKEYResponse).Parse`. -/
def parseDNSKEYLine (line : String) : Except ParseErr DNSKEYRecord :=
  let parts := goFields line
  if parts.length < 8 then .error (.invalidFormat "DNSKEY r" line)
  else
    match goParseUint 16 (parts.getD 4 "") with
    | none => .error (.invalidField "flags" (parts.getD 4 ""))
    | some flags =>
    match goParseUint 8 (parts.getD 5 "") with
    | none => .error (.invalidField "protocol" (parts.getD 5 ""))
    | some protocol =>
    match goParseUint 8 (parts.getD 6 "") with
    | none => .error (.invalidField "algorithm" (parts.getD 6 ""))
    | some algorithm =>
      let rec0 : DNSKEYRecord :=
        { Flags := flags, Protocol := protocol, Algorithm := algorithm
          PublicKey := "", KeyType := "", AlgorithmName := "", KeyID := 0 }
      let comments := (splitBy (· == ';') (chars (goJoin (parts.drop 7) " "))).map ofChars
      if comments.length > 1 then
        match parseDNSKEYComments rec0 (comments.drop 1) with
        | .error e => .error e
        | .ok rec1 =>
          if !goContains line ";" then
            .error (.invalidFormat "missing semicolon in DNSKEY r" line)
          else
            let publicKeyParts :=
              match (parts.drop 7).findIdx? (fun p => goContains p ";") with
              | some i => (parts.drop 7).take i
              | none => parts.drop 7
            .ok { rec1 with PublicKey := goJoin publicKeyParts "" }
      else .error (.invalidFormat "DNSKEY r" line)

/-- The loop body of `(*DNSKEYResponse).Parse` for one line. -/
def DNSKEYResponse.handleLine (r : DNSKEYResponse) (line : String) :
    Except ParseErr DNSKEYResponse :=
  if goStartsWith line "; fully validated" then
    .ok { r with Validated := true }
  else if goStartsWith line "; unsigned answer" then
    .ok { r with Validated := false }
  else if reWordPair "IN" "DNSKEY" line then
    match parseDNSKEYLine line with
    | .error e => .error e
    | .ok rec => .ok { r with Records := r.Records ++ [rec] }
  else if reWordPair "RRSIG" "DNSKEY" line then
    match RRSIGRecord.Parse line with
    | .error e => .error e
    | .ok sig => .ok { r with RRSIG := some sig }
  else .ok r

/-- The per-line loop of `(*DNSKEYResponse).Parse`. -/
def DNSKEYResponse.parseLines : DNSKEYResponse → List String → Except ParseErr DNSKEYResponse
  | r, [] => .ok r
  | r, line :: rest =>
    match DNSKEYResponse.handleLine r line with
    | .error e => .error e
    | .ok r' => DNSKEYResponse.parseLines r' rest

/-- Model of `(*DNSKEYResponse).Parse`. -/
def DNSKEYResponse.Parse (r : DNSKEYResponse) (response : String) :
    Except ParseErr DNSKEYResponse :=
  if goContains response "resolution failed" then
    .error (.resolutionFailed ((goLines response).getD 0 ""))
  else
    DNSKEYResponse.parseLines { r with RawResponse := response } (goLines response)

/-- Model of `(*DNSKEYRecord).Compare`. -/
def DNSKEYRecord.Compare (r b : DNSKEYRecord) : Bool :=
  r.Flags == b.Flags &&
  r.Protocol == b.Protocol &&
  r.Algorithm == b.Algorithm &&
  r.PublicKey == b.PublicKey &&
  r.KeyType == b.KeyType &&
  r.AlgorithmName == b.AlgorithmName &&
  r.KeyID == b.KeyID

/-- Model of `(*DNSKEYResponse).Compare`. -/
def DNSKEYResponse.Compare (r b : DNSKEYResponse) : Bool :=
  r.Records.length == b.Records.length &&
  (List.zip r.Records b.Records).all (fun p => p.1.Compare p.2) &&
  (r.Validated == b.Validated &&
    RRSIGRecord.ComparePtr r.RRSIG b.RRSIG &&
    r.RawResponse == b.RawResponse)

/-! ## DNSNegationInfo (denial-of-existence aggregator)

`NewDNSNegationInfo` starts from `&DNSNegationInfo{}` whose
`RawResponse` field is a nil `*RawResponseDNSNegationInfo`, and then
assigns `dnsNegationInfo.RawResponse.NSEC = responseNSEC` through that
nil pointer.  A Go field assignment through a nil pointer panics, so we
model the function's outcome with an explicit run-time-panic case. -/

structure RawResponseDNSNegationInfo where
  NSEC : String
  NSEC3Param : String
deriving DecidableEq, Repr

structure DNSNegationInfo where
  NSEC : Option NSECRecord
  NSEC3Param : Option NSEC3PARAMRecord
  RawResponse : Option RawResponseDNSNegationInfo
deriving DecidableEq, Repr

/-- Outcome of a Go call that can return a value, return an error, or
panic on a nil-pointer dereference. -/
inductive GoResult (α : Type) where
  | ok (val : α)
  | err (e : ParseErr)
  | nilPanic
deriving DecidableEq, Repr

/-- Model of `NewDNSNegationInfo`. -/
def NewDNSNegationInfo (responseNSEC responseNSEC3Param : String) :
    GoResult DNSNegationInfo :=
  let dnsNegationInfo : DNSNegationInfo :=
    { NSEC := none, NSEC3Param := none, RawResponse := none }
  match dnsNegationInfo.RawResponse with
  | none => .nilPanic
  | some raw0 =>
    let dnsNegationInfo :=
      { dnsNegationInfo with
        RawResponse := some { raw0 with NSEC := responseNSEC, NSEC3Param := responseNSEC3Param } }
    match NSECRecord.Parse NSECRecord.zero responseNSEC with
    | .error e => .err e
    | .ok nsecRecord =>
      let dnsNegationInfo := { dnsNegationInfo with NSEC := some nsecRecord }
      match NSEC3PARAMRecord.Parse NSEC3PARAMRecord.zero responseNSEC3Param with
      | .error e => .err e
      | .ok nsec3paramRecord =>
        .ok { dnsNegationInfo with NSEC3Param := some nsec3paramRecord }

/-! ## Scanner and Assessment (`internal/scanner`, `pkg/models`)

External collaborators (`delv` invocation, domain extraction, the
clock) are parameters of the model.  Each of the seven parser values
kept in the scanner's map is a stateful receiver; `Parse` returns the
updated receiver, which is also the value stored in the assessment
(the Go code stores the very same pointer). -/

/-- One of the seven parser instances the scanner keeps per record
type, together with its current (mutable) state. -/
inductive DNSParser where
  | dnskey (st : DNSKEYResponse)
  | ds (st : DSResponse)
  | soa (st : SOARecord)
  | aaaa (st : AAAAResponse)
  | a (st : AResponse)
  | nsec (st : NSECRecord)
  | nsec3param (st : NSEC3PARAMRecord)
deriving DecidableEq, Repr

/-- Interface dispatch `parser.Parse(response)`: the returned
`DNSRecordResult` is the updated receiver itself. -/
def DNSParser.Parse : DNSParser → String → Except ParseErr DNSParser
  | .dnskey st, s => (st.Parse s).map .dnskey
  | .ds st, s => (st.Parse s).map .ds
  | .soa st, s => (st.Parse s).map .soa
  | .aaaa st, s => (st.Parse s).map .aaaa
  | .a st, s => (st.Parse s).map .a
  | .nsec st, s => (st.Parse s).map .nsec
  | .nsec3param st, s => (st.Parse s).map .nsec3param

/-- The parser map built by `NewScannerDefault` (listed in the order of
the source's map literal; Go map iteration order is unspecified, which
the theorems below do not rely on). -/
def defaultParsers : List (String × DNSParser) :=
  [("DNSKEY", .dnskey DNSKEYResponse.zero),
   ("DS", .ds DSResponse.zero),
   ("SOA", .soa SOARecord.zero),
   ("AAAA", .aaaa AAAAResponse.zero),
   ("A", .a AResponse.zero),
   ("NSEC", .nsec NSECRecord.zero),
   ("NSEC3PARAM", .nsec3param NSEC3PARAMRecord.zero)]

structure Scanner where
  parsers : List (String × DNSParser)
  dnsServerIP : String
deriving DecidableEq, Repr

/-- Model of `models.Assessment`; instants are abstract `Nat` ticks, the zero
value of `time.Time` is tick `0`. `Records` models the Go map as an
association list written only through `mapSet` below. -/
structure Assessment where
  Start : Nat
  End : Nat
  Url : String
  Domain : String
  Records : List (String × DNSParser)
deriving DecidableEq, Repr

/-- Go map assignment `m[k] = v`. -/
def mapSet (m : List (String × DNSParser)) (k : String) (v : DNSParser) :
    List (String × DNSParser) :=
  if m.any (fun p => p.1 == k) then
    m.map (fun p => if p.1 == k then (k, v) else p)
  else m ++ [(k, v)]

/-- Model of `models.NewAssessment`. -/
def NewAssessment (url domain : String) (now : Nat) : Assessment :=
  { Start := now, End := 0, Url := url, Domain := domain, Records := [] }

/-- Model of `(*Assessment).Begin`. -/
def Assessment.Begin (a : Assessment) (now : Nat) : Assessment :=
  { a with Start := now }

/-- Model of `(*Assessment).Finish`. -/
def Assessment.Finish (a : Assessment) (now : Nat) : Assessment :=
  { a with End := now }

/-- Errors a scan can end with: the domain extractor's error, a `delv`
process error, or a record parser's error. -/
inductive ScanErr where
  | extraction (msg : String)
  | process (msg : String)
  | parse (e : ParseErr)
deriving DecidableEq, Repr

/-- The external collaborators of `(*Scanner).Scan`: domain extraction,
the `delv` invocation (domain and record type to captured stdout), and
the clock as a stream of instants indexed by call count. -/
structure ScanEnv where
  extractDomain : String → Except ScanErr String
  resolve : String → String → Except ScanErr String
  now : Nat → Nat

/-- The `for recordType, parser := range s.parsers` loop of
`(*Scanner).Scan`: resolve and parse each record type, storing each
result in the assessment's map; returns the final assessment together
with the updated parser instances. -/
def scanLoop (env : ScanEnv) (domain : String) :
    List (String × DNSParser) → Assessment →
    Except ScanErr (Assessment × List (String × DNSParser))
  | [], acc => .ok (acc, [])
  | (recordType, parser) :: rest, acc =>
    match env.resolve domain recordType with
    | .error e => .error e
    | .ok out =>
      match parser.Parse out with
      | .error e => .error (.parse e)
      | .ok parser' =>
        match scanLoop env domain rest
            { acc with Records := mapSet acc.Records recordType parser' } with
        | .error e => .error e
        | .ok (acc', rest') => .ok (acc', (recordType, parser') :: rest')

/-- Model of `(*Scanner).Scan`. -/
def Scanner.Scan (s : Scanner) (env : ScanEnv) (url : String) :
    Except ScanErr (Assessment × Scanner) :=
  match env.extractDomain url with
  | .error e => .error e
  | .ok domain =>
    let assessment := NewAssessment url domain (env.now 0)
    let assessment := assessment.Begin (env.now 1)
    match scanLoop env domain s.parsers assessment with
    | .error e => .error e
    | .ok (assessment, parsers') =>
      .ok (assessment.Finish (env.now 2), { s with parsers := parsers' })

/-! ## Definitions used only to state claims -/

/-- A line carrying the fully-validated marker. -/
def isFVLine (l : String) : Bool := goStartsWith l "; fully validated"

/-- A line carrying the unsigned-answer marker. -/
def isUALine (l : String) : Bool := goStartsWith l "; unsigned answer"

/-- The validation flag produced by scanning marker lines in order,
starting from flag `b`: the last marker line wins. -/
def markerFold (b : Bool) : List String → Bool
  | [] => b
  | l :: rest => markerFold (if isFVLine l then true else if isUALine l then false else b) rest

/-- Erase the field that `(*ARecord).Compare` ignores. -/
def ARecord.stripTTL (r : ARecord) : ARecord := { r with OriginalTTL := 0 }

/-- Erase, in a whole response, the per-record fields that
`(*AResponse).Compare` ignores. -/
def AResponse.stripTTL (r : AResponse) : AResponse :=
  { r with Records := r.Records.map ARecord.stripTTL }

/-- Erase the field that `(*NSECRecord).Compare` ignores. -/
def NSECRecord.stripTTL (r : NSECRecord) : NSECRecord := { r with TTL := 0 }

/-- Key list produced by a sequence of Go map assignments. -/
def keysFold (ks : List String) : List String → List String
  | [] => ks
  | l :: ls => keysFold (if ks.any (· == l) then ks else ks ++ [l]) ls

/-! Concrete sample responses (taken from the repository's unit tests). -/

/-- A single-record unsigned address response (test data of the source). -/
def unsignedAResponse : String :=
  "; unsigned answer\nipp.pt.                 600     IN      A       193.136.58.74"

/-- The same single address record with TTL 600. -/
def respTTL600 : String := "ipp.pt.                 600     IN      A       193.136.58.74"

/-- The same single address record with TTL 700. -/
def respTTL700 : String := "ipp.pt.                 700     IN      A       193.136.58.74"

/-- The RRSIG test line of the source's unit tests. -/
def rrsigTestLine : String :=
  "uminho.pt.              14400   IN      RRSIG   SOA 5 2 14400 20240114000002 20231215000002 51330 uminho.pt. ZysOlFWuqRItdxt59 2Mk="

/-- The zone-authority data line of the source's unit tests. -/
def soaTestLine : String :=
  "uminho.pt.              14400   IN      SOA     dns.uminho.pt. servicos.scom.uminho.pt. 2023121501 14400 7200 1209600 300"

/-- The next-secure-parameters data line of the source's unit tests
(salt-length token `-`). -/
def nsec3paramTestLine : String :=
  "nl.                     0       IN      NSEC3PARAM 1 0 0 -"

/-- A default scanner instance (the parser map of `NewScannerDefault`). -/
def sampleScanner : Scanner :=
  { parsers := defaultParsers, dnsServerIP := "@193.136.195.220" }

/-- An environment whose collaborators all succeed: extraction yields a
fixed domain, the resolver returns empty output, the clock ticks the
call index. -/
def sampleEnv : ScanEnv :=
  { extractDomain := fun _ => .ok "example.com"
    resolve := fun _ _ => .ok ""
    now := fun n => n }

/-- A second zone-authority data line with different field values. -/
def soaTestLine2 : String :=
  "uminho.pt.              14400   IN      SOA     ns2.uminho.pt. hostmaster.uminho.pt. 2024010101 28800 3600 1209600 600"

/-- A response holding two zone-authority data lines in sequence. -/
def soaTwoLineResponse : String := soaTestLine ++ "\n" ++ soaTestLine2

/-! # Claims

Each claim of the specification is settled by one theorem below
(with a witness theorem when the statement carries hypotheses, and a
counterexample theorem where the claim as stated fails on the code). -/

/-- Claim C2 (code defect): `NewDNSNegationInfo` assigns
`dnsNegationInfo.RawResponse.NSEC` through the nil `RawResponse`
pointer of the freshly created `&DNSNegationInfo{}`, so for every pair
of raw response texts the aggregator panics on a nil-pointer
dereference; it never records a failed half as absent, never retains
the raw texts, and never returns normally, contrary to the claim. -/
theorem C2_negation_aggregator_always_panics
    (responseNSEC responseNSEC3Param : String) :
    NewDNSNegationInfo responseNSEC responseNSEC3Param = GoResult.nilPanic := rfl

/-- Claim C3 (code defect): the per-type parsers are not side-effect-free:
`Parse` appends into the receiver, and the orchestrator keeps one
parser instance per record type, so parsing the same single-record
response twice through one instance yields one record the first time
and two records the second time, contrary to the claim. -/
theorem C3_parser_receiver_accumulates :
    (AResponse.Parse AResponse.zero unsignedAResponse).toOption.map
        (fun r => r.Records.length) = some 1
    ∧ (AResponse.Parse AResponse.zero unsignedAResponse).toOption.bind
        (fun r => (AResponse.Parse r unsignedAResponse).toOption.map
          (fun r2 => r2.Records.length)) = some 2 := by
  constructor <;> rfl

/-- Claim C4: if the raw text contains the resolution-failure marker,
every one of the seven per-type record parsers fails with the
resolution-failure error carrying the first line of the text,
whatever else the text contains and whatever the receiver state. -/
theorem C4_resolution_failure_takes_precedence
    (response : String) (h : goContains response "resolution failed" = true)
    (ra : AResponse) (raaaa : AAAAResponse) (rds : DSResponse) (rsoa : SOARecord)
    (rkey : DNSKEYResponse) (rnsec : NSECRecord) (rn3p : NSEC3PARAMRecord) :
    ra.Parse response = .error (.resolutionFailed ((goLines response).getD 0 ""))
    ∧ raaaa.Parse response = .error (.resolutionFailed ((goLines response).getD 0 ""))
    ∧ rds.Parse response = .error (.resolutionFailed ((goLines response).getD 0 ""))
    ∧ rsoa.Parse response = .error (.resolutionFailed ((goLines response).getD 0 ""))
    ∧ rkey.Parse response = .error (.resolutionFailed ((goLines response).getD 0 ""))
    ∧ rnsec.Parse response = .error (.resolutionFailed ((goLines response).getD 0 ""))
    ∧ rn3p.Parse response = .error (.resolutionFailed ((goLines response).getD 0 "")) := by
  refine ⟨?_, ?_, ?_, ?_, ?_, ?_, ?_⟩ <;>
    simp [AResponse.Parse, AAAAResponse.Parse, DSResponse.Parse, SOARecord.Parse,
      DNSKEYResponse.Parse, NSECRecord.Parse, NSEC3PARAMRecord.Parse, h]

/-- Witness for C4 at a concrete failed response of the source's tests. -/
theorem C4_witness :
    goContains ";; resolution failed: ncache nxrrset\n; negative response" "resolution failed" = true
    ∧ AResponse.Parse AResponse.zero ";; resolution failed: ncache nxrrset\n; negative response"
        = .error (.resolutionFailed
            ((goLines ";; resolution failed: ncache nxrrset\n; negative response").getD 0 "")) := by
  refine ⟨by decide, ?_⟩
  exact (C4_resolution_failure_takes_precedence _ (by decide) AResponse.zero
    AAAAResponse.zero DSResponse.zero SOARecord.zero DNSKEYResponse.zero
    NSECRecord.zero NSEC3PARAMRecord.zero).1

/-- On a zone-authority data line with at least 11 tokens whose numeric
fields parse, `parseSOALine` overwrites the single-record fields with
the values read from the line's fixed token positions. -/
theorem parseSOALine_ok
    (r : SOARecord) (line : String)
    (serial refresh retry expire minimum : Nat)
    (hlen : 11 ≤ (goFields line).length)
    (hserial : goParseUint 32 ((goFields line).getD 6 "") = some serial)
    (hrefresh : goParseUint 32 ((goFields line).getD 7 "") = some refresh)
    (hretry : goParseUint 32 ((goFields line).getD 8 "") = some retry)
    (hexpire : goParseUint 32 ((goFields line).getD 9 "") = some expire)
    (hminimum : goParseUint 32 ((goFields line).getD 10 "") = some minimum) :
    parseSOALine r line = .ok { r with
      PrimaryNS := goTrimSuffix ((goFields line).getD 4 "") "."
      Contact := soaContact ((goFields line).getD 5 "")
      Serial := serial, Refresh := refresh, Retry := retry
      Expire := expire, Minimum := minimum } := by
  simp only [parseSOALine]
  rw [if_neg (by omega), hserial, hrefresh, hretry, hexpire, hminimum]

/-- Claim C8: on a zone-authority data line with at least 11 tokens whose
numeric fields parse, the primary nameserver is token 4 with a trailing
dot stripped and the contact is token 5 with the trailing dot stripped
and the first remaining dot rewritten to `@`; in particular the mailbox
token of the source's test yields `servicos@scom.uminho.pt`. -/
theorem C8_soa_primary_ns_and_contact
    (r : SOARecord) (line : String)
    (serial refresh retry expire minimum : Nat)
    (hlen : 11 ≤ (goFields line).length)
    (hserial : goParseUint 32 ((goFields line).getD 6 "") = some serial)
    (hrefresh : goParseUint 32 ((goFields line).getD 7 "") = some refresh)
    (hretry : goParseUint 32 ((goFields line).getD 8 "") = some retry)
    (hexpire : goParseUint 32 ((goFields line).getD 9 "") = some expire)
    (hminimum : goParseUint 32 ((goFields line).getD 10 "") = some minimum) :
    parseSOALine r line = .ok { r with
      PrimaryNS := goTrimSuffix ((goFields line).getD 4 "") "."
      Contact := soaContact ((goFields line).getD 5 "")
      Serial := serial, Refresh := refresh, Retry := retry
      Expire := expire, Minimum := minimum }
    ∧ soaContact "servicos.scom.uminho.pt." = "servicos@scom.uminho.pt" := by
  exact ⟨parseSOALine_ok r line serial refresh retry expire minimum
    hlen hserial hrefresh hretry hexpire hminimum, by decide⟩

/-- Witness for C8 at the zone-authority line of the source's tests. -/
theorem C8_witness :
    11 ≤ (goFields soaTestLine).length
    ∧ parseSOALine SOARecord.zero soaTestLine = .ok { SOARecord.zero with
        PrimaryNS := goTrimSuffix ((goFields soaTestLine).getD 4 "") "."
        Contact := soaContact ((goFields soaTestLine).getD 5 "")
        Serial := 2023121501, Refresh := 14400, Retry := 7200
        Expire := 1209600, Minimum := 300 } := by
  refine ⟨by decide, ?_⟩
  exact (C8_soa_primary_ns_and_contact SOARecord.zero soaTestLine
    2023121501 14400 7200 1209600 300 (by decide) (by decide) (by decide)
    (by decide) (by decide) (by decide)).1

/-- Claim C9: on a next-secure-parameters data line with at least 8 tokens
whose other numeric fields parse, a salt-length token `-` yields a
successful parse with `SaltLength = 0`, while any other token rejected
by the unsigned parser fails with the format error carrying that
token. -/
theorem C9_nsec3param_salt_dash
    (r : NSEC3PARAMRecord) (line : String)
    (ttl hashAlgorithm flags iterations : Nat)
    (hlen : 8 ≤ (goFields line).length)
    (httl : goParseUint 32 ((goFields line).getD 1 "") = some ttl)
    (hhash : goParseUint 8 ((goFields line).getD 4 "") = some hashAlgorithm)
    (hflags : goParseUint 8 ((goFields line).getD 5 "") = some flags)
    (hiter : goParseUint 16 ((goFields line).getD 6 "") = some iterations) :
    ((goFields line).getD 7 "" = "-" →
      parseNSEC3PARAMLine r line = .ok { r with
        TTL := ttl, HashAlgorithm := hashAlgorithm, Flags := flags
        Iterations := iterations, SaltLength := 0 })
    ∧ (goParseUint 8 ((goFields line).getD 7 "") = none →
        (goFields line).getD 7 "" ≠ "-" →
        parseNSEC3PARAMLine r line
          = .error (.invalidField "Salt Length" ((goFields line).getD 7 ""))) := by
  constructor
  · intro h7
    simp only [parseNSEC3PARAMLine]
    rw [if_neg (by omega), httl, hhash, hflags, hiter, h7,
      show goParseUint 8 "-" = none from by decide]
    rfl
  · intro hnone h7ne
    simp only [parseNSEC3PARAMLine]
    rw [if_neg (by omega), httl, hhash, hflags, hiter, hnone,
      show ((goFields line).getD 7 "" == "-") = false from beq_eq_false_iff_ne.mpr h7ne]
    rfl

/-- Witness for C9 at the next-secure-parameters line of the source's
tests, whose salt-length token is `-`. -/
theorem C9_witness :
    (goFields nsec3paramTestLine).getD 7 "" = "-"
    ∧ parseNSEC3PARAMLine NSEC3PARAMRecord.zero nsec3paramTestLine
        = .ok { NSEC3PARAMRecord.zero with
            TTL := 0, HashAlgorithm := 1, Flags := 0, Iterations := 0, SaltLength := 0 } := by
  refine ⟨by decide, ?_⟩
  exact (C9_nsec3param_salt_dash NSEC3PARAMRecord.zero nsec3paramTestLine
    0 1 0 0 (by decide) (by decide) (by decide) (by decide) (by decide)).1 (by decide)

/-- Claim C6: the signature-descriptor parser tokenizes on white space,
rejects fewer than 13 tokens, reads its fields from the fixed 0-indexed
token positions 4–11, concatenates tokens 12 onward with no separator
as the signature, parses the two timestamps with the fixed 14-digit
UTC layout, and reports every numeric or temporal parse failure with
the offending token. -/
theorem C6_rrsig_token_layout (rrsigLine : String) :
    ((goFields rrsigLine).length < 13 →
      RRSIGRecord.Parse rrsigLine = .error (.invalidFormat "RRSIG record format" rrsigLine))
    ∧ (∀ alg lab ttl exp inc kt,
        13 ≤ (goFields rrsigLine).length →
        goParseUint 8 ((goFields rrsigLine).getD 5 "") = some alg →
        goParseUint 8 ((goFields rrsigLine).getD 6 "") = some lab →
        goParseUint 32 ((goFields rrsigLine).getD 7 "") = some ttl →
        parseTime ((goFields rrsigLine).getD 8 "") = some exp →
        parseTime ((goFields rrsigLine).getD 9 "") = some inc →
        goParseUint 16 ((goFields rrsigLine).getD 10 "") = some kt →
        RRSIGRecord.Parse rrsigLine = .ok
          { TypeCovered := (goFields rrsigLine).getD 4 ""
            Algorithm := alg, Labels := lab, OriginalTTL := ttl
            Expiration := toUint32 exp, Inception := toUint32 inc, KeyTag := kt
            SignerName := goTrimSuffix ((goFields rrsigLine).getD 11 "") "."
            Signature := String.join ((goFields rrsigLine).drop 12) })
    ∧ (13 ≤ (goFields rrsigLine).length →
        goParseUint 8 ((goFields rrsigLine).getD 5 "") = none →
        RRSIGRecord.Parse rrsigLine
          = .error (.invalidField "algorithm value" ((goFields rrsigLine).getD 5 "")))
    ∧ (∀ alg, 13 ≤ (goFields rrsigLine).length →
        goParseUint 8 ((goFields rrsigLine).getD 5 "") = some alg →
        goParseUint 8 ((goFields rrsigLine).getD 6 "") = none →
        RRSIGRecord.Parse rrsigLine
          = .error (.invalidField "labels value" ((goFields rrsigLine).getD 6 "")))
    ∧ (∀ alg lab, 13 ≤ (goFields rrsigLine).length →
        goParseUint 8 ((goFields rrsigLine).getD 5 "") = some alg →
        goParseUint 8 ((goFields rrsigLine).getD 6 "") = some lab →
        goParseUint 32 ((goFields rrsigLine).getD 7 "") = none →
        RRSIGRecord.Parse rrsigLine
          = .error (.invalidField "original TTL value" ((goFields rrsigLine).getD 7 "")))
    ∧ (∀ alg lab ttl, 13 ≤ (goFields rrsigLine).length →
        goParseUint 8 ((goFields rrsigLine).getD 5 "") = some alg →
        goParseUint 8 ((goFields rrsigLine).getD 6 "") = some lab →
        goParseUint 32 ((goFields rrsigLine).getD 7 "") = some ttl →
        parseTime ((goFields rrsigLine).getD 8 "") = none →
        RRSIGRecord.Parse rrsigLine
          = .error (.invalidField "expiration time value" ((goFields rrsigLine).getD 8 "")))
    ∧ (∀ alg lab ttl exp, 13 ≤ (goFields rrsigLine).length →
        goParseUint 8 ((goFields rrsigLine).getD 5 "") = some alg →
        goParseUint 8 ((goFields rrsigLine).getD 6 "") = some lab →
        goParseUint 32 ((goFields rrsigLine).getD 7 "") = some ttl →
        parseTime ((goFields rrsigLine).getD 8 "") = some exp →
        parseTime ((goFields rrsigLine).getD 9 "") = none →
        RRSIGRecord.Parse rrsigLine
          = .error (.invalidField "inception time value" ((goFields rrsigLine).getD 9 "")))
    ∧ (∀ alg lab ttl exp inc, 13 ≤ (goFields rrsigLine).length →
        goParseUint 8 ((goFields rrsigLine).getD 5 "") = some alg →
        goParseUint 8 ((goFields rrsigLine).getD 6 "") = some lab →
        goParseUint 32 ((goFields rrsigLine).getD 7 "") = some ttl →
        parseTime ((goFields rrsigLine).getD 8 "") = some exp →
        parseTime ((goFields rrsigLine).getD 9 "") = some inc →
        goParseUint 16 ((goFields rrsigLine).getD 10 "") = none →
        RRSIGRecord.Parse rrsigLine
          = .error (.invalidField "key tag value" ((goFields rrsigLine).getD 10 ""))) := by
  refine ⟨?_, ?_, ?_, ?_, ?_, ?_, ?_, ?_⟩
  · intro hlt
    simp only [RRSIGRecord.Parse]
    rw [if_pos hlt]
  · intro alg lab ttl exp inc kt hlen h5 h6 h7 h8 h9 h10
    simp only [RRSIGRecord.Parse]
    rw [if_neg (by omega), h5, h6, h7, h8, h9, h10]
  · intro hlen h5
    simp only [RRSIGRecord.Parse]
    rw [if_neg (by omega), h5]
  · intro alg hlen h5 h6
    simp only [RRSIGRecord.Parse]
    rw [if_neg (by omega), h5, h6]
  · intro alg lab hlen h5 h6 h7
    simp only [RRSIGRecord.Parse]
    rw [if_neg (by omega), h5, h6, h7]
  · intro alg lab ttl hlen h5 h6 h7 h8
    simp only [RRSIGRecord.Parse]
    rw [if_neg (by omega), h5, h6, h7, h8]
  · intro alg lab ttl exp hlen h5 h6 h7 h8 h9
    simp only [RRSIGRecord.Parse]
    rw [if_neg (by omega), h5, h6, h7, h8, h9]
  · intro alg lab ttl exp inc hlen h5 h6 h7 h8 h9 h10
    simp only [RRSIGRecord.Parse]
    rw [if_neg (by omega), h5, h6, h7, h8, h9, h10]

/-- The comparison `Compare` on two non-nil signature records is full structural
equality. -/
theorem rrsig_compare_eq_true_iff (r b : RRSIGRecord) : r.Compare b = true ↔ r = b := by
  cases r
  cases b
  simp only [RRSIGRecord.Compare, RRSIGRecord.mk.injEq, Bool.and_eq_true, beq_iff_eq]
  tauto

/-- The nil-safe pointer comparison of signature descriptors is
equality of the optional values. -/
theorem rrsig_comparePtr_eq_true_iff (a b : Option RRSIGRecord) :
    RRSIGRecord.ComparePtr a b = true ↔ a = b := by
  cases a <;> cases b <;>
    simp [RRSIGRecord.ComparePtr, rrsig_compare_eq_true_iff]

/-- The comparison `Compare` on address records is equality after erasing the TTL. -/
theorem arecord_compare_iff_strip (a b : ARecord) :
    a.Compare b = true ↔ a.stripTTL = b.stripTTL := by
  cases a
  cases b
  simp [ARecord.Compare, ARecord.stripTTL, ARecord.mk.injEq]

/-- Element-wise `Compare` of two address-record lists (with the length
check of the source's loop) is equality of the TTL-erased lists. -/
theorem arecord_list_compare_iff_strip (xs ys : List ARecord) :
    (xs.length = ys.length ∧ ∀ p ∈ List.zip xs ys, p.1.Compare p.2 = true)
      ↔ xs.map ARecord.stripTTL = ys.map ARecord.stripTTL := by
  induction xs generalizing ys with
  | nil => cases ys <;> simp
  | cons x xs ih =>
    cases ys with
    | nil => simp
    | cons y ys =>
      simp only [List.length_cons, List.zip_cons_cons, List.mem_cons, List.map_cons,
        List.cons.injEq, Nat.add_right_cancel_iff]
      rw [← ih ys, ← arecord_compare_iff_strip]
      constructor
      · rintro ⟨hlen, hall⟩
        exact ⟨hall _ (Or.inl rfl), hlen, fun p hp => hall p (Or.inr hp)⟩
      · rintro ⟨hxy, hlen, hall⟩
        exact ⟨hlen, fun p hp => hp.elim (fun h => h ▸ hxy) (hall p)⟩

/-- Witness for C6 at the RRSIG line of the source's tests. -/
theorem C6_witness :
    13 ≤ (goFields rrsigTestLine).length
    ∧ RRSIGRecord.Parse rrsigTestLine = .ok
        { TypeCovered := (goFields rrsigTestLine).getD 4 ""
          Algorithm := 5, Labels := 2, OriginalTTL := 14400
          Expiration := toUint32 1705190402, Inception := toUint32 1702598402
          KeyTag := 51330
          SignerName := goTrimSuffix ((goFields rrsigTestLine).getD 11 "") "."
          Signature := String.join ((goFields rrsigTestLine).drop 12) } := by
  refine ⟨by decide, ?_⟩
  exact (C6_rrsig_token_layout rrsigTestLine).2.1 5 2 14400 1705190402 1702598402 51330
    (by decide) (by decide) (by decide) (by decide) (by decide) (by decide) (by decide)

/-- Claim C1 counterexample: two parsed address records that differ in
their TTL field (600 vs 700) are judged equal by `Compare`, so
`Compare` is not "true iff every field is equal". -/
theorem C1_counterexample :
    (AResponse.Parse AResponse.zero respTTL600).toOption.bind (fun r => r.Records.head?)
        = some { IPv4 := "193.136.58.74", OriginalTTL := 600 }
    ∧ (AResponse.Parse AResponse.zero respTTL700).toOption.bind (fun r => r.Records.head?)
        = some { IPv4 := "193.136.58.74", OriginalTTL := 700 }
    ∧ ARecord.Compare { IPv4 := "193.136.58.74", OriginalTTL := 600 }
        { IPv4 := "193.136.58.74", OriginalTTL := 700 } = true
    ∧ ({ IPv4 := "193.136.58.74", OriginalTTL := 600 } : ARecord)
        ≠ { IPv4 := "193.136.58.74", OriginalTTL := 700 } := by
  refine ⟨rfl, rfl, rfl, by decide⟩

/-- Claim C1 amended: `Compare` on address-record results and next-secure
records is equality of every field except the per-record TTL, which is
ignored: two `AResponse`s compare equal iff they agree after erasing
each address record's TTL, and two `NSECRecord`s compare equal iff
they agree after erasing the TTL (record sets element-wise in parse
order, signature descriptors nil-safely, raw texts exactly). -/
theorem C1_compare_ignores_record_ttl (x y : AResponse) (n m : NSECRecord) :
    (x.Compare y = true ↔ x.stripTTL = y.stripTTL)
    ∧ (n.Compare m = true ↔ n.stripTTL = m.stripTTL) := by
  constructor
  · cases x with | mk xr xv xs xraw =>
    cases y with | mk yr yv ys yraw =>
    simp only [AResponse.Compare, AResponse.stripTTL, AResponse.mk.injEq,
      Bool.and_eq_true, beq_iff_eq, List.all_eq_true,
      rrsig_comparePtr_eq_true_iff]
    have h := arecord_list_compare_iff_strip xr yr
    tauto
  · cases n
    cases m
    simp only [NSECRecord.Compare, NSECRecord.stripTTL, NSECRecord.mk.injEq,
      Bool.and_eq_true, beq_iff_eq, rrsig_comparePtr_eq_true_iff]
    tauto

/-- Witness for the amended C1 at concrete records: responses that agree
on everything but a record TTL compare equal, and equal records compare
equal. -/
theorem C1_witness :
    AResponse.Compare
      { Records := [{ IPv4 := "193.136.58.74", OriginalTTL := 600 }],
        Validated := false, RRSIG := none, RawResponse := "x" }
      { Records := [{ IPv4 := "193.136.58.74", OriginalTTL := 700 }],
        Validated := false, RRSIG := none, RawResponse := "x" } = true := by
  exact (C1_compare_ignores_record_ttl _ _ NSECRecord.zero NSECRecord.zero).1.mpr (by decide)

/-- One line of the address parser updates the validation flag exactly
when the line is a marker line, the last marker winning. -/
theorem aresp_handleLine_flag (r r' : AResponse) (line : String)
    (h : AResponse.handleLine r line = .ok r') :
    r'.Validated = if isFVLine line then true
      else if isUALine line then false else r.Validated := by
  unfold AResponse.handleLine at h
  unfold isFVLine isUALine
  split at h
  · injection h with h
    subst h
    simp_all
  · split at h
    · injection h with h
      subst h
      simp_all
    · split at h
      · simp only [] at h
        split at h
        · exact Except.noConfusion h
        · split at h
          · exact Except.noConfusion h
          · injection h with h
            subst h
            simp_all
      · split at h
        · split at h
          · exact Except.noConfusion h
          · injection h with h
            subst h
            simp_all
        · injection h with h
          subst h
          simp_all

/-- The address parser's validation flag is the marker fold over the
processed lines. -/
theorem aresp_parseLines_flag (ls : List String) :
    ∀ r r', AResponse.parseLines r ls = .ok r' →
      r'.Validated = markerFold r.Validated ls := by
  induction ls with
  | nil =>
    intro r r' h
    simp only [AResponse.parseLines] at h
    injection h with h
    subst h
    rfl
  | cons line rest ih =>
    intro r r' h
    simp only [AResponse.parseLines] at h
    cases hh : AResponse.handleLine r line with
    | error e =>
      rw [hh] at h
      exact Except.noConfusion h
    | ok r2 =>
      rw [hh] at h
      simp only [markerFold]
      rw [ih r2 r' h, aresp_handleLine_flag r r2 line hh]

/-- One line of the zone-authority parser updates the validation flag
exactly when the line is a marker line. -/
theorem soa_handleLine_flag (r r' : SOARecord) (line : String)
    (h : SOARecord.handleLine r line = .ok r') :
    r'.Validated = if isFVLine line then true
      else if isUALine line then false else r.Validated := by
  unfold SOARecord.handleLine at h
  unfold isFVLine isUALine
  split at h
  · injection h with h
    subst h
    simp_all
  · split at h
    · injection h with h
      subst h
      simp_all
    · split at h
      · unfold parseSOALine at h
        simp only [] at h
        split at h
        · exact Except.noConfusion h
        · split at h
          · exact Except.noConfusion h
          · split at h
            · exact Except.noConfusion h
            · split at h
              · exact Except.noConfusion h
              · split at h
                · exact Except.noConfusion h
                · split at h
                  · exact Except.noConfusion h
                  · injection h with h
                    subst h
                    simp_all
      · split at h
        · split at h
          · exact Except.noConfusion h
          · injection h with h
            subst h
            simp_all
        · injection h with h
          subst h
          simp_all

/-- The zone-authority parser's validation flag is the marker fold over
the processed lines. -/
theorem soa_parseLines_flag (ls : List String) :
    ∀ r r', SOARecord.parseLines r ls = .ok r' →
      r'.Validated = markerFold r.Validated ls := by
  induction ls with
  | nil =>
    intro r r' h
    simp only [SOARecord.parseLines] at h
    injection h with h
    subst h
    rfl
  | cons line rest ih =>
    intro r r' h
    simp only [SOARecord.parseLines] at h
    cases hh : SOARecord.handleLine r line with
    | error e =>
      rw [hh] at h
      exact Except.noConfusion h
    | ok r2 =>
      rw [hh] at h
      simp only [markerFold]
      rw [ih r2 r' h, soa_handleLine_flag r r2 line hh]

/-- Without any unsigned-answer line, the marker fold is true exactly
when a fully-validated line occurs (or the flag started true). -/
theorem markerFold_of_no_ua (ls : List String) :
    ∀ b, ls.any isUALine = false → markerFold b ls = (b || ls.any isFVLine) := by
  induction ls with
  | nil => intro b _; simp [markerFold]
  | cons l rest ih =>
    intro b h
    simp only [List.any_cons, Bool.or_eq_false_iff] at h
    simp only [markerFold, List.any_cons, h.1, Bool.false_or]
    cases hfv : isFVLine l with
    | true => simp [ih true h.2, hfv]
    | false => simp [ih b h.2, hfv, h.1]

/-- Without any fully-validated line, the marker fold is false as soon
as an unsigned-answer line occurs (and otherwise keeps the flag). -/
theorem markerFold_of_no_fv (ls : List String) :
    ∀ b, ls.any isFVLine = false → markerFold b ls = (b && !ls.any isUALine) := by
  induction ls with
  | nil => intro b _; simp [markerFold]
  | cons l rest ih =>
    intro b h
    simp only [List.any_cons, Bool.or_eq_false_iff] at h
    simp only [markerFold, List.any_cons, h.1, Bool.false_or]
    cases hua : isUALine l with
    | true => simp [ih false h.2, hua, h.1]
    | false => simp [ih b h.2, hua, h.1]

/-- Claim C5 counterexample: a successfully parsed response containing a
line that begins with the fully-validated marker can still end with
`validated = false`, because a later unsigned-answer marker line
overwrites the flag; so "validated is true if a line begins with the
fully-validated marker" fails as stated. -/
theorem C5_counterexample :
    (AResponse.Parse AResponse.zero "; fully validated\n; unsigned answer").toOption.map
        (fun r => r.Validated) = some false
    ∧ (goLines "; fully validated\n; unsigned answer").any isFVLine = true := by
  exact ⟨rfl, by decide⟩

/-- Claim C5 amended: for a successfully parsed response (fresh receiver),
the validated flag is true when some line begins with the
fully-validated marker and no line begins with the unsigned-answer
marker; false when some line begins with the unsigned-answer marker
and no line begins with the fully-validated marker; and false (the
default) when neither marker occurs.  (When both markers occur, the
last marker line wins — see C10.) -/
theorem C5_validation_marker_cases (response : String) :
    (∀ ra, AResponse.Parse AResponse.zero response = .ok ra →
      (((goLines response).any isFVLine = true ∧ (goLines response).any isUALine = false) →
        ra.Validated = true)
      ∧ (((goLines response).any isUALine = true ∧ (goLines response).any isFVLine = false) →
        ra.Validated = false)
      ∧ (((goLines response).any isFVLine = false ∧ (goLines response).any isUALine = false) →
        ra.Validated = false))
    ∧ (∀ rs, SOARecord.Parse SOARecord.zero response = .ok rs →
      (((goLines response).any isFVLine = true ∧ (goLines response).any isUALine = false) →
        rs.Validated = true)
      ∧ (((goLines response).any isUALine = true ∧ (goLines response).any isFVLine = false) →
        rs.Validated = false)
      ∧ (((goLines response).any isFVLine = false ∧ (goLines response).any isUALine = false) →
        rs.Validated = false)) := by
  constructor
  · intro ra h
    unfold AResponse.Parse at h
    split at h
    · exact Except.noConfusion h
    · have hflag := aresp_parseLines_flag (goLines response) _ ra h
      refine ⟨fun hc => ?_, fun hc => ?_, fun hc => ?_⟩
      · rw [hflag, markerFold_of_no_ua _ _ hc.2]
        simp [AResponse.zero, hc.1]
      · rw [hflag, markerFold_of_no_fv _ _ hc.2]
        simp [AResponse.zero]
      · rw [hflag, markerFold_of_no_fv _ _ hc.1]
        simp [AResponse.zero]
  · intro rs h
    unfold SOARecord.Parse at h
    split at h
    · exact Except.noConfusion h
    · have hflag := soa_parseLines_flag (goLines response) _ rs h
      refine ⟨fun hc => ?_, fun hc => ?_, fun hc => ?_⟩
      · rw [hflag, markerFold_of_no_ua _ _ hc.2]
        simp [SOARecord.zero, hc.1]
      · rw [hflag, markerFold_of_no_fv _ _ hc.2]
        simp [SOARecord.zero]
      · rw [hflag, markerFold_of_no_fv _ _ hc.1]
        simp [SOARecord.zero]

/-- Witness for the amended C5 at the unsigned test response. -/
theorem C5_witness :
    (goLines unsignedAResponse).any isUALine = true
    ∧ ∃ ra, AResponse.Parse AResponse.zero unsignedAResponse = .ok ra
        ∧ ra.Validated = false := by
  refine ⟨by decide, ?_⟩
  obtain ⟨ra, hra⟩ : ∃ ra, AResponse.Parse AResponse.zero unsignedAResponse = .ok ra :=
    ⟨_, rfl⟩
  exact ⟨ra, hra,
    ((C5_validation_marker_cases unsignedAResponse).1 ra hra).2.1 ⟨by decide, by decide⟩⟩

/-- The address parser's line loop processes an appended suffix after
the prefix. -/
theorem aresp_parseLines_append (ls₁ ls₂ : List String) :
    ∀ r, AResponse.parseLines r (ls₁ ++ ls₂)
      = match AResponse.parseLines r ls₁ with
        | .error e => .error e
        | .ok r' => AResponse.parseLines r' ls₂ := by
  induction ls₁ with
  | nil => intro r; rfl
  | cons line rest ih =>
    intro r
    simp only [List.cons_append, AResponse.parseLines]
    cases AResponse.handleLine r line with
    | error e => rfl
    | ok r2 => exact ih r2

/-- The zone-authority parser's line loop processes an appended suffix
after the prefix. -/
theorem soa_parseLines_append (ls₁ ls₂ : List String) :
    ∀ r, SOARecord.parseLines r (ls₁ ++ ls₂)
      = match SOARecord.parseLines r ls₁ with
        | .error e => .error e
        | .ok r' => SOARecord.parseLines r' ls₂ := by
  induction ls₁ with
  | nil => intro r; rfl
  | cons line rest ih =>
    intro r
    simp only [List.cons_append, SOARecord.parseLines]
    cases SOARecord.handleLine r line with
    | error e => rfl
    | ok r2 => exact ih r2

/-- Claim C10: within one response, lines are processed in order and the
last line that sets a single-valued field wins: whatever record state
`r'` the earlier lines produced, a final fully-validated (resp.
unsigned-answer) marker line forces the flag to true (resp. false), a
final signature line replaces the stored signature descriptor, and a
final zone-authority data line overwrites every single-record field
with its own values. -/
theorem C10_last_matching_line_wins
    (response : String) (r : AResponse) (rs : SOARecord) (ls : List String) (l : String) :
    (goContains response "resolution failed" = false →
      goLines response = ls ++ [l] →
      ∀ r', AResponse.parseLines { r with RawResponse := response } ls = .ok r' →
        (isFVLine l = true →
          AResponse.Parse r response = .ok { r' with Validated := true })
        ∧ (isFVLine l = false → isUALine l = true →
          AResponse.Parse r response = .ok { r' with Validated := false })
        ∧ (∀ sig, isFVLine l = false → isUALine l = false →
            reWordPair "IN" "A" l = false → reWordPair "RRSIG" "A" l = true →
            RRSIGRecord.Parse l = .ok sig →
            AResponse.Parse r response = .ok { r' with RRSIG := some sig }))
    ∧ (goContains response "resolution failed" = false →
      goLines response = ls ++ [l] →
      ∀ r' serial refresh retry expire minimum,
        SOARecord.parseLines { rs with RawResponse := response } ls = .ok r' →
        isFVLine l = false → isUALine l = false →
        reWordPair "IN" "SOA" l = true →
        11 ≤ (goFields l).length →
        goParseUint 32 ((goFields l).getD 6 "") = some serial →
        goParseUint 32 ((goFields l).getD 7 "") = some refresh →
        goParseUint 32 ((goFields l).getD 8 "") = some retry →
        goParseUint 32 ((goFields l).getD 9 "") = some expire →
        goParseUint 32 ((goFields l).getD 10 "") = some minimum →
        SOARecord.Parse rs response = .ok { r' with
          PrimaryNS := goTrimSuffix ((goFields l).getD 4 "") "."
          Contact := soaContact ((goFields l).getD 5 "")
          Serial := serial, Refresh := refresh, Retry := retry
          Expire := expire, Minimum := minimum }) := by
  constructor
  · intro hc hlines r' hpre
    have hparse : AResponse.Parse r response
        = AResponse.parseLines { r with RawResponse := response } (ls ++ [l]) := by
      unfold AResponse.Parse
      rw [hc, ← hlines]
      rfl
    rw [aresp_parseLines_append ls [l] _, hpre] at hparse
    refine ⟨fun hfv => ?_, fun hfv hua => ?_, fun sig hfv hua hia hrr hsig => ?_⟩
    · rw [hparse]
      simp only [AResponse.parseLines, AResponse.handleLine]
      rw [show goStartsWith l "; fully validated" = true from hfv]
      rfl
    · rw [hparse]
      simp only [AResponse.parseLines, AResponse.handleLine]
      rw [show goStartsWith l "; fully validated" = false from hfv,
        show goStartsWith l "; unsigned answer" = true from hua]
      rfl
    · rw [hparse]
      simp only [AResponse.parseLines, AResponse.handleLine]
      rw [show goStartsWith l "; fully validated" = false from hfv,
        show goStartsWith l "; unsigned answer" = false from hua, hia, hrr, hsig]
      rfl
  · intro hc hlines r' serial refresh retry expire minimum hpre hfv hua hin hlen
      hserial hrefresh hretry hexpire hminimum
    have hparse : SOARecord.Parse rs response
        = SOARecord.parseLines { rs with RawResponse := response } (ls ++ [l]) := by
      unfold SOARecord.Parse
      rw [hc, ← hlines]
      rfl
    rw [soa_parseLines_append ls [l] _, hpre] at hparse
    rw [hparse]
    simp only [SOARecord.parseLines, SOARecord.handleLine]
    rw [show goStartsWith l "; fully validated" = false from hfv,
      show goStartsWith l "; unsigned answer" = false from hua, hin,
      parseSOALine_ok r' l serial refresh retry expire minimum hlen
        hserial hrefresh hretry hexpire hminimum]
    rfl

/-- Witness for C10: a response with two zone-authority data lines in
sequence parses to the second line's field values. -/
theorem C10_witness :
    goLines soaTwoLineResponse = [soaTestLine, soaTestLine2]
    ∧ ∃ r', SOARecord.parseLines { SOARecord.zero with RawResponse := soaTwoLineResponse }
          [soaTestLine] = .ok r'
        ∧ SOARecord.Parse SOARecord.zero soaTwoLineResponse = .ok { r' with
            PrimaryNS := goTrimSuffix ((goFields soaTestLine2).getD 4 "") "."
            Contact := soaContact ((goFields soaTestLine2).getD 5 "")
            Serial := 2024010101, Refresh := 28800, Retry := 3600
            Expire := 1209600, Minimum := 600 } := by
  refine ⟨by decide, ?_⟩
  obtain ⟨r', hr'⟩ : ∃ r',
      SOARecord.parseLines { SOARecord.zero with RawResponse := soaTwoLineResponse }
        [soaTestLine] = .ok r' := ⟨_, rfl⟩
  refine ⟨r', hr', ?_⟩
  exact (C10_last_matching_line_wins soaTwoLineResponse AResponse.zero SOARecord.zero
      [soaTestLine] soaTestLine2).2 (by decide) (by decide)
    r' 2024010101 28800 3600 1209600 600 hr' (by decide) (by decide) (by decide)
    (by decide) (by decide) (by decide) (by decide) (by decide) (by decide)

/-- The membership test of a Go map assignment, seen on the key list. -/
theorem any_fst_eq (m : List (String × DNSParser)) (k : String) :
    (m.any fun p => p.1 == k) = (m.map Prod.fst).any (· == k) := by
  induction m with
  | nil => rfl
  | cons hd tl ih => simp [List.any_cons, ih]

/-- A Go map assignment leaves the key list unchanged when the key is
present and appends it otherwise. -/
theorem mapSet_keys (m : List (String × DNSParser)) (k : String) (v : DNSParser) :
    (mapSet m k v).map Prod.fst
      = if (m.map Prod.fst).any (· == k) then m.map Prod.fst
        else m.map Prod.fst ++ [k] := by
  unfold mapSet
  rw [any_fst_eq]
  split
  · rw [List.map_map]
    apply List.map_congr_left
    intro p _
    by_cases hp : p.1 = k
    · simp [hp]
    · simp [hp]
  · simp

/-- Keys survive the fold of Go map assignments. -/
theorem keysFold_sub (ls : List String) :
    ∀ ks k, k ∈ ks → k ∈ keysFold ks ls := by
  induction ls with
  | nil => intro ks k hk; exact hk
  | cons l rest ih =>
    intro ks k hk
    simp only [keysFold]
    split
    · exact ih ks k hk
    · exact ih _ k (List.mem_append_left _ hk)

/-- Every processed key ends up in the fold of Go map assignments. -/
theorem keysFold_mem (ls : List String) :
    ∀ ks k, k ∈ ls → k ∈ keysFold ks ls := by
  induction ls with
  | nil => intro ks k hk; cases hk
  | cons l rest ih =>
    intro ks k hk
    rcases List.mem_cons.mp hk with hk | hk
    · subst hk
      simp only [keysFold]
      split
      · rename_i hany
        refine keysFold_sub rest ks k ?_
        rcases List.any_eq_true.mp hany with ⟨x, hx, hxk⟩
        exact beq_iff_eq.mp hxk ▸ hx
      · exact keysFold_sub rest _ k (List.mem_append_right _ (List.mem_singleton.mpr rfl))
    · simp only [keysFold]
      split
      · exact ih ks k hk
      · exact ih _ k hk

/-- When every record type resolves and parses, the scan loop succeeds,
touches only the assessment's record map, and its key list is the fold
of the processed labels. -/
theorem scanLoop_ok (env : ScanEnv) (domain : String) (ps : List (String × DNSParser)) :
    ∀ acc, (∀ lp ∈ ps, ∃ out p', env.resolve domain lp.1 = .ok out
        ∧ DNSParser.Parse lp.2 out = .ok p') →
      ∃ recs ps', scanLoop env domain ps acc = .ok ({ acc with Records := recs }, ps')
        ∧ recs.map Prod.fst
            = keysFold (acc.Records.map Prod.fst) (ps.map Prod.fst) := by
  induction ps with
  | nil =>
    intro acc _
    exact ⟨acc.Records, [], rfl, rfl⟩
  | cons hd tl ih =>
    obtain ⟨rt, parser⟩ := hd
    intro acc hall
    obtain ⟨out, p', hres, hparse⟩ := hall (rt, parser) (List.mem_cons_self _ _)
    replace hres : env.resolve domain rt = Except.ok out := hres
    replace hparse : DNSParser.Parse parser out = Except.ok p' := hparse
    obtain ⟨recs, ps', hloop, hkeys⟩ :=
      ih { acc with Records := mapSet acc.Records rt p' }
        (fun lp hlp => hall lp (List.mem_cons_of_mem _ hlp))
    refine ⟨recs, (rt, p') :: ps', ?_, ?_⟩
    · simp only [scanLoop, hres, hparse, hloop]
    · rw [hkeys]
      show keysFold ((mapSet acc.Records rt p').map Prod.fst) (tl.map Prod.fst)
        = keysFold (acc.Records.map Prod.fst) (List.map Prod.fst ((rt, parser) :: tl))
      rw [mapSet_keys]
      rfl

/-- A failing resolver invocation aborts the scan loop with that
error once the earlier record types succeeded. -/
theorem scanLoop_resolve_error (env : ScanEnv) (domain : String)
    (pre : List (String × DNSParser)) :
    ∀ acc l p post e,
      (∀ lp ∈ pre, ∃ out p', env.resolve domain lp.1 = .ok out
          ∧ DNSParser.Parse lp.2 out = .ok p') →
      env.resolve domain l = .error e →
      scanLoop env domain (pre ++ (l, p) :: post) acc = .error e := by
  induction pre with
  | nil =>
    intro acc l p post e _ hres
    simp only [List.nil_append, scanLoop, hres]
  | cons hd tl ih =>
    obtain ⟨rt, parser⟩ := hd
    intro acc l p post e hall hres
    obtain ⟨out, p', hres0, hparse0⟩ := hall (rt, parser) (List.mem_cons_self _ _)
    replace hres0 : env.resolve domain rt = Except.ok out := hres0
    replace hparse0 : DNSParser.Parse parser out = Except.ok p' := hparse0
    have hih := ih { acc with Records := mapSet acc.Records rt p' } l p post e
      (fun lp hlp => hall lp (List.mem_cons_of_mem _ hlp)) hres
    show scanLoop env domain ((rt, parser) :: (tl ++ (l, p) :: post)) acc = Except.error e
    simp only [scanLoop, hres0, hparse0, hih]

/-- A failing parse aborts the scan loop with that error once the
earlier record types succeeded. -/
theorem scanLoop_parse_error (env : ScanEnv) (domain : String)
    (pre : List (String × DNSParser)) :
    ∀ acc l p post out e,
      (∀ lp ∈ pre, ∃ out p', env.resolve domain lp.1 = .ok out
          ∧ DNSParser.Parse lp.2 out = .ok p') →
      env.resolve domain l = .ok out →
      DNSParser.Parse p out = .error e →
      scanLoop env domain (pre ++ (l, p) :: post) acc = .error (.parse e) := by
  induction pre with
  | nil =>
    intro acc l p post out e _ hres hparse
    simp only [List.nil_append, scanLoop, hres, hparse]
  | cons hd tl ih =>
    obtain ⟨rt, parser⟩ := hd
    intro acc l p post out e hall hres hparse
    obtain ⟨out0, p0, hres0, hparse0⟩ := hall (rt, parser) (List.mem_cons_self _ _)
    replace hres0 : env.resolve domain rt = Except.ok out0 := hres0
    replace hparse0 : DNSParser.Parse parser out0 = Except.ok p0 := hparse0
    have hih := ih { acc with Records := mapSet acc.Records rt p0 } l p post out e
      (fun lp hlp => hall lp (List.mem_cons_of_mem _ hlp)) hres hparse
    show scanLoop env domain ((rt, parser) :: (tl ++ (l, p) :: post)) acc
      = Except.error (.parse e)
    simp only [scanLoop, hres0, hparse0, hih]

/-- Claim C7: the scan orchestrator is fail-fast — a domain-extraction
error, a resolver error on any record type, or a parse error on any
record type makes `Scan` return that error with no assessment; and
when extraction and all record types succeed, `Scan` returns a
completed assessment whose end instant is set and whose record map
holds an entry for every configured record-type label (for the default
scanner, exactly the seven labels). -/
theorem C7_scan_fail_fast (s : Scanner) (env : ScanEnv) (url : String) :
    (∀ e, env.extractDomain url = .error e → s.Scan env url = .error e)
    ∧ (∀ domain pre l p post e,
        env.extractDomain url = .ok domain →
        s.parsers = pre ++ (l, p) :: post →
        (∀ lp ∈ pre, ∃ out p', env.resolve domain lp.1 = .ok out
            ∧ DNSParser.Parse lp.2 out = .ok p') →
        env.resolve domain l = .error e →
        s.Scan env url = .error e)
    ∧ (∀ domain pre l p post out e,
        env.extractDomain url = .ok domain →
        s.parsers = pre ++ (l, p) :: post →
        (∀ lp ∈ pre, ∃ out p', env.resolve domain lp.1 = .ok out
            ∧ DNSParser.Parse lp.2 out = .ok p') →
        env.resolve domain l = .ok out →
        DNSParser.Parse p out = .error e →
        s.Scan env url = .error (.parse e))
    ∧ (∀ domain,
        env.extractDomain url = .ok domain →
        (∀ lp ∈ s.parsers, ∃ out p', env.resolve domain lp.1 = .ok out
            ∧ DNSParser.Parse lp.2 out = .ok p') →
        ∃ a s', s.Scan env url = .ok (a, s')
          ∧ a.End = env.now 2
          ∧ a.Url = url ∧ a.Domain = domain
          ∧ a.Records.map Prod.fst = keysFold [] (s.parsers.map Prod.fst)
          ∧ (∀ lbl ∈ s.parsers.map Prod.fst, lbl ∈ a.Records.map Prod.fst)
          ∧ (s.parsers = defaultParsers →
              a.Records.map Prod.fst
                = ["DNSKEY", "DS", "SOA", "AAAA", "A", "NSEC", "NSEC3PARAM"])) := by
  refine ⟨?_, ?_, ?_, ?_⟩
  · intro e hex
    simp only [Scanner.Scan, hex]
  · intro domain pre l p post e hex hps hall hres
    have hsl := scanLoop_resolve_error env domain pre
      ((NewAssessment url domain (env.now 0)).Begin (env.now 1)) l p post e hall hres
    simp only [Scanner.Scan, hex, hps, hsl]
  · intro domain pre l p post out e hex hps hall hres hparse
    have hsl := scanLoop_parse_error env domain pre
      ((NewAssessment url domain (env.now 0)).Begin (env.now 1)) l p post out e
      hall hres hparse
    simp only [Scanner.Scan, hex, hps, hsl]
  · intro domain hex hall
    obtain ⟨recs, ps', hloop, hkeys⟩ :=
      scanLoop_ok env domain s.parsers
        ((NewAssessment url domain (env.now 0)).Begin (env.now 1)) hall
    refine ⟨({ (NewAssessment url domain (env.now 0)).Begin (env.now 1) with
        Records := recs }).Finish (env.now 2), { s with parsers := ps' },
      ?_, rfl, rfl, rfl, ?_, ?_, ?_⟩
    · simp only [Scanner.Scan, hex, hloop]
    · exact hkeys
    · intro lbl hlbl
      show lbl ∈ recs.map Prod.fst
      rw [hkeys]
      exact keysFold_mem _ _ _ hlbl
    · intro hdef
      show recs.map Prod.fst = _
      rw [hkeys, hdef]
      rfl

/-- Witness for C7: a fully successful scan of the default scanner over
an environment whose resolver returns empty output for every record
type. -/
theorem C7_witness :
    ∃ a s', Scanner.Scan sampleScanner sampleEnv "https://www.example.com" = .ok (a, s')
      ∧ a.End = 2
      ∧ a.Records.map Prod.fst = ["DNSKEY", "DS", "SOA", "AAAA", "A", "NSEC", "NSEC3PARAM"] := by
  have hall : ∀ lp ∈ sampleScanner.parsers,
      ∃ out p', sampleEnv.resolve "example.com" lp.1 = .ok out
        ∧ DNSParser.Parse lp.2 out = .ok p' := by
    intro lp hlp
    simp only [sampleScanner, defaultParsers, List.mem_cons, List.not_mem_nil,
      or_false] at hlp
    rcases hlp with h | h | h | h | h | h | h <;> subst h <;> exact ⟨"", _, rfl, rfl⟩
  obtain ⟨a, s', hok, hEnd, hUrl, hDom, hkeys, hmem, hdef⟩ :=
    (C7_scan_fail_fast sampleScanner sampleEnv "https://www.example.com").2.2.2
      "example.com" rfl hall
  exact ⟨a, s', hok, hEnd, hdef (by rfl)⟩

end DNSSEC
